import Mathlib

/-!
Shallow embedding of the two browser scripts of this repository:
`src/scripts/slideshow.js` (the `Slideshow` class) and
`src/scripts/viewport-scale.js` (the `updateScale` function).

The slideshow controller is single-threaded and event-driven, so it is
modelled as a state record together with step functions, one per source
method or event handler.  The pieces of the host environment the code
interacts with are carried in the same record: the table of pending
rotation timers created by `setTimeout` (`pending`), the fresh-id
counters, the wall clock read by `Date.now()` (`now`), and the console
log.  `Math.random()` draws are passed in explicitly as parameters
(`reshuffle` oracles for the permutation, rational draws for the
centerpoint).
-/

namespace Norri

/-- Effective option values of the controller (slideshow.js, constructor). -/
structure Options where
  displayDuration : Nat
  transitionDuration : Nat
  viewportPercentage : Nat
  marginX : Nat
  marginY : Nat
deriving DecidableEq

/-- A DOM image element created by the slideshow.  `inDom` records whether the
element is attached to the container (`remove()` detaches it); `hovered`
models `matches(":hover")`. -/
structure Entity where
  eid : Nat
  classes : List String
  hovered : Bool
  inDom : Bool
deriving DecidableEq

/-- A pending host timer created by `setTimeout` for the rotation.
`checksPause` records whether the scheduled callback re-checks `isPaused`
before calling `showNextImage` (true for the success-path and resume-path
callbacks, lines 101-106 and 265-270; false for the error-path callback,
lines 282-285). -/
structure Timer where
  tid : Nat
  delay : Int
  checksPause : Bool
deriving DecidableEq

/-- State of one `Slideshow` controller plus the host-environment pieces it
touches: pending rotation timers, fresh ids, the wall clock and the console. -/
structure Slideshow where
  container : Bool
  imagePaths : List String
  shuffledImages : List String
  currentIndex : Nat
  elems : List Entity
  currentImage : Option Nat
  isPaused : Bool
  nextImageTimeout : Option Nat
  imageShowTime : Option Int
  fullDisplayDuration : Option Nat
  options : Options
  pending : List Timer
  nextId : Nat
  nextEid : Nat
  now : Int
  log : List String
deriving DecidableEq

namespace Slideshow

/-- JS truthiness of a nullable integer field (`null` and `0` are falsy). -/
def truthyInt : Option Int → Bool
  | none => false
  | some n => n != 0

/-- JS truthiness of a nullable natural-number field. -/
def truthyNat : Option Nat → Bool
  | none => false
  | some n => n != 0

/-- The full per-image duration `transitionDuration + displayDuration`
(lines 92 and 252). -/
def nominalDuration (s : Slideshow) : Nat :=
  s.options.transitionDuration + s.options.displayDuration

/-- Host effect of `clearTimeout(h)`: the timer with id `h` (if any) stops
pending.  The controller field `nextImageTimeout` is not touched here. -/
def clearTimer (s : Slideshow) (h : Option Nat) : Slideshow :=
  match h with
  | none => s
  | some t => { s with pending := s.pending.filter (fun tm => tm.tid != t) }

/-- Effect of `this.nextImageTimeout = setTimeout(cb, delay)`: a fresh timer starts
pending and its id is stored in the handle field. -/
def scheduleRotation (s : Slideshow) (delay : Int) (checksPause : Bool) : Slideshow :=
  { s with pending := s.pending ++ [⟨s.nextId, delay, checksPause⟩],
           nextImageTimeout := some s.nextId,
           nextId := s.nextId + 1 }

/-- Method `pause()` (lines 71-81). -/
def pause (s : Slideshow) : Slideshow :=
  if s.isPaused then s
  else
    let s1 : Slideshow := { s with isPaused := true }
    match s1.nextImageTimeout with
    | none => s1
    | some t => { clearTimer s1 (some t) with nextImageTimeout := none }

/-- The delay computed at the top of `resume()` (lines 92-97): the remaining
time `max(0, fullDisplayDuration - (Date.now() - imageShowTime))` when both
fields are truthy, the full nominal duration otherwise. -/
def resumeDelay (s : Slideshow) : Int :=
  if truthyInt s.imageShowTime && truthyNat s.fullDisplayDuration then
    max 0 ((s.fullDisplayDuration.getD 0 : Int) - (s.now - s.imageShowTime.getD 0))
  else
    (nominalDuration s : Int)

/-- Method `resume()` (lines 86-108).  Note that it does not clear an existing
pending timeout before scheduling. -/
def resume (s : Slideshow) : Slideshow :=
  if !s.isPaused then s
  else
    let s1 : Slideshow := { s with isPaused := false }
    if s1.currentImage.isSome then scheduleRotation s1 (resumeDelay s1) true
    else s1

/-- The class name shared by all slideshow image elements. -/
def imageClass : String := "slideshow-image"

/-- The synchronous part of `showNextImage()` (lines 172-193): the container
check and the cursor/permutation update.  The created element's load outcome
is delivered later by `onloadSettle` / `onerrorSettle`.  `reshuffle` stands
for the fresh random permutation `[...this.imagePaths].sort(() =>
Math.random() - 0.5)` drawn when the cursor wraps to 0.  Returns the image
path taken at the cursor. -/
def showNextImage (s : Slideshow) (reshuffle : List String) : Option String × Slideshow :=
  if !s.container then
    (none, { s with log := s.log ++ ["Slideshow container not found"] })
  else
    let taken := s.shuffledImages[s.currentIndex]?
    let idx := (s.currentIndex + 1) % s.shuffledImages.length
    (taken, { s with currentIndex := idx,
                     shuffledImages := if idx == 0 then reshuffle else s.shuffledImages })

/-- The `img.onload` handler of a rotation tick (lines 195-272), with the
frame-aligned activation (lines 227-237) folded in: the new element is
attached bearing the shared class, marked active, and becomes the tracked
current image; `imageShowTime` and `fullDisplayDuration` are recorded; any
pending rotation timeout is cleared (the handle itself is not nulled, lines
259-261) and, unless paused, the next tick is scheduled after the full
duration.  The fade-out removal of the previous element (lines 214-222) is a
separate non-rotation timer and is not tracked in `pending`. -/
def onloadSettle (s : Slideshow) : Slideshow :=
  let dur := nominalDuration s
  let s1 : Slideshow :=
    { s with elems := s.elems ++ [⟨s.nextEid, [imageClass, "active"], false, true⟩],
             currentImage := some s.nextEid,
             nextEid := s.nextEid + 1,
             fullDisplayDuration := some dur,
             imageShowTime := some s.now }
  let s2 := clearTimer s1 s1.nextImageTimeout
  if s2.isPaused then s2 else scheduleRotation s2 (dur : Int) true

/-- The `img.onerror` handler (lines 275-286): log a warning, clear any
pending rotation timeout, and schedule the next tick after the same full
duration.  The scheduling is unconditional (no `isPaused` guard) and the
scheduled callback calls `showNextImage` without re-checking `isPaused`. -/
def onerrorSettle (s : Slideshow) (path : String) : Slideshow :=
  let s1 : Slideshow := { s with log := s.log ++ ["Failed to load image: " ++ path] }
  let s2 := clearTimer s1 s1.nextImageTimeout
  scheduleRotation s2 (nominalDuration s : Int) false

/-- The body of a fired rotation-timer callback: the timer stops pending,
the callback sets `nextImageTimeout = null` and then calls `showNextImage()`
(guarded by `isPaused` only for success/resume callbacks). -/
def fireBody (s : Slideshow) (t : Nat) (tm : Timer) (reshuffle : List String) : Slideshow :=
  let s1 : Slideshow := { s with pending := s.pending.filter (fun x => x.tid != t),
                                 nextImageTimeout := none }
  if tm.checksPause && s1.isPaused then s1
  else (showNextImage s1 reshuffle).2

/-- The host fires pending rotation timer `t` (a no-op unless such a timer
is actually pending). -/
def fireTimer (s : Slideshow) (t : Nat) (reshuffle : List String) : Slideshow :=
  match s.pending.find? (fun tm => tm.tid == t) with
  | none => s
  | some tm => fireBody s t tm reshuffle

/-- Predicate `classList.contains(c)`. -/
def hasClass (e : Entity) (c : String) : Bool := e.classes.contains c

/-- First stage of `cleanupStuckImages()` (lines 117-124): every attached
slideshow image other than the current one is removed from the container. -/
def removeStrays (s : Slideshow) : Slideshow :=
  { s with elems := s.elems.map (fun e =>
      if e.inDom && hasClass e imageClass && !(some e.eid == s.currentImage)
      then { e with inDom := false } else e) }

/-- Second stage of `cleanupStuckImages()` (lines 126-129): if the current
element exists and lacks the `active` class, add it. -/
def forceActive (s : Slideshow) : Slideshow :=
  match s.currentImage with
  | none => s
  | some ce =>
    { s with elems := s.elems.map (fun e =>
        if e.eid == ce && !hasClass e "active"
        then { e with classes := e.classes ++ ["active"] } else e) }

/-- Third stage of `cleanupStuckImages()` (lines 131-137): if paused and the
current element is not hovered, resume. -/
def resumeIfNotHovered (s : Slideshow) : Slideshow :=
  match s.currentImage with
  | none => s
  | some ce =>
    if s.isPaused
        && !(((s.elems.find? (fun e => e.eid == ce)).map Entity.hovered).getD false)
    then resume s else s

/-- Method `cleanupStuckImages()` (lines 113-138), as the composition of its three
stages behind the container guard of line 114. -/
def cleanupStuckImages (s : Slideshow) : Slideshow :=
  if !s.container then s
  else resumeIfNotHovered (forceActive (removeStrays s))

/-- Method `preloadImages()` (lines 156-167): one promise per image, resolving on
load and rejecting on error; `Promise.all` resolves with the list of results
iff every promise resolves, and rejects as soon as any rejects.  `loads` is
the environment: whether a given source loads successfully. -/
def preloadImages (loads : String → Bool) : List String → Option (List String)
  | [] => some []
  | src :: rest =>
    match (if loads src then some src else none), preloadImages loads rest with
    | some i, some is => some (i :: is)
    | _, _ => none

/-- Method `init()` (lines 143-151): install the shuffled permutation, preload every
image, and call `showNextImage` when (and only when) the `Promise.all`
resolves — the rejection case has no handler attached, so rotation never
begins if any preload fails.  Returns the image taken by the first tick,
`none` when no tick happens. -/
def initStep (loads : String → Bool) (shuffle reshuffle : List String)
    (s : Slideshow) : Option String × Slideshow :=
  let s1 : Slideshow := { s with shuffledImages := shuffle }
  match preloadImages loads s1.shuffledImages with
  | some _ => showNextImage s1 reshuffle
  | none => (none, s1)

/-- External events that drive the controller's timer state. -/
inductive Event where
  | pauseEv : Event
  | resumeEv : Event
  | loadOk : Event
  | loadErr (path : String) : Event
  | fire (t : Nat) (reshuffle : List String) : Event
deriving DecidableEq

/-- Dispatch one event. -/
def step (s : Slideshow) : Event → Slideshow
  | .pauseEv => pause s
  | .resumeEv => resume s
  | .loadOk => onloadSettle s
  | .loadErr p => onerrorSettle s p
  | .fire t r => fireTimer s t r

/-- Run a sequence of events. -/
def runEvents (s : Slideshow) : List Event → Slideshow
  | [] => s
  | e :: es => runEvents (step s e) es

/-- Whether an event is a load error. -/
def Event.isErr : Event → Bool
  | .loadErr _ => true
  | _ => false

/-- Boolean form of the rotation-timer invariant: at most one rotation timer
pends, and when one does, the controller is unpaused and its handle tracks
exactly that timer. -/
def timerInvB (s : Slideshow) : Bool :=
  match s.pending with
  | [] => true
  | [tm] => !s.isPaused && s.nextImageTimeout == some tm.tid
  | _ :: _ :: _ => false

/-- The rotation-timer invariant as a proposition. -/
def TimerInv (s : Slideshow) : Prop := timerInvB s = true

instance TimerInv.instDecidable (s : Slideshow) : Decidable (TimerInv s) :=
  inferInstanceAs (Decidable (timerInvB s = true))

/-- Iterate rotation ticks, collecting the image taken at each tick; `os j`
is the random permutation drawn if the j-th tick wraps the cursor. -/
def runTicks (os : Nat → List String) : Nat → Slideshow → List (Option String) × Slideshow
  | 0, s => ([], s)
  | k + 1, s =>
    let r := showNextImage s (os 0)
    let rest := runTicks (fun j => os (j + 1)) k r.2
    (r.1 :: rest.1, rest.2)

/-- Method `getRandomCenterpoint(imageWidth, imageHeight)` (lines 318-336), with the
two `Math.random()` draws made explicit as `rx`, `ry`.  The image dimensions
are parameters of the source function but are never read. -/
def getRandomCenterpoint (viewportWidth viewportHeight marginXPct marginYPct : ℚ)
    (imageWidth imageHeight : ℚ) (rx ry : ℚ) : ℚ × ℚ :=
  let marginX := viewportWidth * marginXPct / 100
  let marginY := viewportHeight * marginYPct / 100
  let minX := marginX
  let maxX := viewportWidth - marginX
  let minY := marginY
  let maxY := viewportHeight - marginY
  (rx * (maxX - minX) + minX, ry * (maxY - minY) + minY)

end Slideshow

namespace ViewportScale

/-- Constant `VIRTUAL_WIDTH` (viewport-scale.js line 7). -/
def virtualWidth : ℚ := 1024

/-- Constant `VIRTUAL_HEIGHT` (viewport-scale.js line 8). -/
def virtualHeight : ℚ := 768

/-- Function `updateScale()` (viewport-scale.js lines 19-33): the scale factor applied
as a uniform transform to the virtual viewport.  It reads only the two
current window dimensions, so it is a pure function with no retained state;
the script merely re-runs it on load, resize and orientation change. -/
def updateScale (viewportWidth viewportHeight : ℚ) : ℚ :=
  let scaleX := viewportWidth / virtualWidth
  let scaleY := viewportHeight / virtualHeight
  min (min scaleX scaleY) 1

end ViewportScale

/-- A concrete controller state (container found, three-image catalog, the
shipped option values) used to evaluate the definitions on closed inputs. -/
def baseState : Slideshow :=
  { container := true
  , imagePaths := ["a", "b", "c"]
  , shuffledImages := ["a", "b", "c"]
  , currentIndex := 0
  , elems := []
  , currentImage := none
  , isPaused := false
  , nextImageTimeout := none
  , imageShowTime := none
  , fullDisplayDuration := none
  , options := ⟨1500, 250, 20, 20, 20⟩
  , pending := []
  , nextId := 1
  , nextEid := 1
  , now := 1000
  , log := [] }

/-- A concrete stuck state: three stray attached slideshow images plus the
tracked current one (which lacks the `active` class), paused, nothing
hovered. -/
def strayState : Slideshow :=
  { baseState with
      currentImage := some 0
    , isPaused := true
    , elems :=
        [ ⟨0, ["slideshow-image"], false, true⟩
        , ⟨1, ["slideshow-image", "active"], false, true⟩
        , ⟨2, ["slideshow-image"], false, true⟩
        , ⟨3, ["slideshow-image", "active"], false, true⟩ ] }

namespace Slideshow

/-! ### Helper lemmas -/

lemma getLast_append_single {α : Type} (l : List α) (a : α) :
    (l ++ [a]).getLast? = some a := by
  induction l with
  | nil => rfl
  | cons x xs ih =>
    cases xs with
    | nil => rfl
    | cons y ys => simpa using ih

lemma pause_isPaused (s : Slideshow) : (pause s).isPaused = true := by
  unfold pause
  cases h : s.isPaused
  · cases hn : s.nextImageTimeout <;> simp [h, hn, clearTimer]
  · simp [h]

lemma pause_of_isPaused (s : Slideshow) (h : s.isPaused = true) : pause s = s := by
  simp [pause, h]

lemma resume_isPaused (s : Slideshow) : (resume s).isPaused = false := by
  unfold resume
  cases h : s.isPaused
  · simp [h]
  · cases hc : s.currentImage <;> simp [h, hc, scheduleRotation]

lemma resume_of_not_paused (s : Slideshow) (h : s.isPaused = false) : resume s = s := by
  simp [resume, h]

lemma pause_fields (s : Slideshow) :
    (pause s).imageShowTime = s.imageShowTime
    ∧ (pause s).fullDisplayDuration = s.fullDisplayDuration
    ∧ (pause s).now = s.now
    ∧ (pause s).currentImage = s.currentImage
    ∧ (pause s).options = s.options
    ∧ (pause s).nextId = s.nextId := by
  unfold pause clearTimer
  cases h : s.isPaused <;> cases hn : s.nextImageTimeout <;> simp [h, hn]

lemma resumeDelay_pause (s : Slideshow) : resumeDelay (pause s) = resumeDelay s := by
  obtain ⟨h1, h2, h3, -, h5, -⟩ := pause_fields s
  unfold resumeDelay nominalDuration
  rw [h1, h2, h3, h5]

/-! ### C9 -/

/-- C9: the companion viewport scaler computes
`scale = min(windowWidth/1024, windowHeight/768, 1)` as a pure function of
the two window dimensions (it is a plain function here, with no state), the
scale never exceeds 1, and the scaled 1024x768 container fits the window in
both dimensions. -/
theorem updateScale_correct (w h : ℚ) :
    ViewportScale.updateScale w h = min (min (w / 1024) (h / 768)) 1
    ∧ ViewportScale.updateScale w h ≤ 1
    ∧ 1024 * ViewportScale.updateScale w h ≤ w
    ∧ 768 * ViewportScale.updateScale w h ≤ h := by
  have hd : ViewportScale.updateScale w h = min (min (w / 1024) (h / 768)) 1 := rfl
  refine ⟨hd, ?_, ?_, ?_⟩
  · rw [hd]; exact min_le_right _ _
  · have hx : min (min (w / 1024) (h / 768)) 1 ≤ w / 1024 :=
      le_trans (min_le_left _ _) (min_le_left _ _)
    rw [hd]; linarith
  · have hy : min (min (w / 1024) (h / 768)) 1 ≤ h / 768 :=
      le_trans (min_le_left _ _) (min_le_right _ _)
    rw [hd]; linarith

/-! ### C10 -/

/-- C10: when the container reference is null, `showNextImage` takes no
image, writes one console error line, and leaves every controller field
unchanged (no cursor advance, no reshuffle, no timer scheduled); and
`cleanupStuckImages` returns with the state entirely unchanged.  Both are
total functions, so neither throws. -/
theorem null_container_noop (s : Slideshow) (reshuffle : List String)
    (hc : s.container = false) :
    (showNextImage s reshuffle).1 = none
    ∧ (showNextImage s reshuffle).2 =
        { s with log := s.log ++ ["Slideshow container not found"] }
    ∧ cleanupStuckImages s = s := by
  refine ⟨?_, ?_, ?_⟩ <;> simp [showNextImage, cleanupStuckImages, hc]

/-- Witness for C10 at a concrete state with a missing container. -/
theorem null_container_noop_witness :
    ({ baseState with container := false } : Slideshow).container = false
    ∧ ((showNextImage { baseState with container := false } []).1 = none
       ∧ (showNextImage { baseState with container := false } []).2 =
           { ({ baseState with container := false } : Slideshow) with
               log := ({ baseState with container := false } : Slideshow).log
                 ++ ["Slideshow container not found"] }
       ∧ cleanupStuckImages { baseState with container := false } =
           { baseState with container := false }) :=
  ⟨rfl, null_container_noop { baseState with container := false } [] rfl⟩

/-! ### C5 -/

/-- C5: for margins of at most 50% and any random draws in [0, 1], the
centerpoint returned by `getRandomCenterpoint` lies within
`[marginX%·W, (1−marginX%)·W] × [marginY%·H, (1−marginY%)·H]`, regardless
of the image's own width and height (which the function never reads). -/
theorem centerpoint_within_margins (W H mX mY iw ih rx ry : ℚ)
    (hW : 0 ≤ W) (hH : 0 ≤ H)
    (hmX : 2 * mX ≤ 100) (hmY : 2 * mY ≤ 100)
    (hrx0 : 0 ≤ rx) (hrx1 : rx ≤ 1) (hry0 : 0 ≤ ry) (hry1 : ry ≤ 1) :
    mX / 100 * W ≤ (getRandomCenterpoint W H mX mY iw ih rx ry).1
    ∧ (getRandomCenterpoint W H mX mY iw ih rx ry).1 ≤ (1 - mX / 100) * W
    ∧ mY / 100 * H ≤ (getRandomCenterpoint W H mX mY iw ih rx ry).2
    ∧ (getRandomCenterpoint W H mX mY iw ih rx ry).2 ≤ (1 - mY / 100) * H := by
  simp only [getRandomCenterpoint]
  have hx : 0 ≤ rx * (W * (100 - 2 * mX)) :=
    mul_nonneg hrx0 (mul_nonneg hW (by linarith))
  have hx1 : 0 ≤ (1 - rx) * (W * (100 - 2 * mX)) :=
    mul_nonneg (by linarith) (mul_nonneg hW (by linarith))
  have hy : 0 ≤ ry * (H * (100 - 2 * mY)) :=
    mul_nonneg hry0 (mul_nonneg hH (by linarith))
  have hy1 : 0 ≤ (1 - ry) * (H * (100 - 2 * mY)) :=
    mul_nonneg (by linarith) (mul_nonneg hH (by linarith))
  refine ⟨by nlinarith, by nlinarith, by nlinarith, by nlinarith⟩

/-- Witness for C5 at the shipped margins (20%) on a 1000x800 viewport with
both draws at 1/2. -/
theorem centerpoint_within_margins_witness :
    (0:ℚ) ≤ 1000 ∧ (0:ℚ) ≤ 800
    ∧ 2 * (20:ℚ) ≤ 100 ∧ 2 * (20:ℚ) ≤ 100
    ∧ (0:ℚ) ≤ 1/2 ∧ (1/2:ℚ) ≤ 1 ∧ (0:ℚ) ≤ 1/2 ∧ (1/2:ℚ) ≤ 1
    ∧ ((20:ℚ) / 100 * 1000 ≤ (getRandomCenterpoint 1000 800 20 20 300 200 (1/2) (1/2)).1
       ∧ (getRandomCenterpoint 1000 800 20 20 300 200 (1/2) (1/2)).1 ≤ (1 - (20:ℚ) / 100) * 1000
       ∧ (20:ℚ) / 100 * 800 ≤ (getRandomCenterpoint 1000 800 20 20 300 200 (1/2) (1/2)).2
       ∧ (getRandomCenterpoint 1000 800 20 20 300 200 (1/2) (1/2)).2 ≤ (1 - (20:ℚ) / 100) * 800) :=
  ⟨by norm_num, by norm_num, by norm_num, by norm_num,
   by norm_num, by norm_num, by norm_num, by norm_num,
   centerpoint_within_margins 1000 800 20 20 300 200 (1/2) (1/2)
     (by norm_num) (by norm_num) (by norm_num) (by norm_num)
     (by norm_num) (by norm_num) (by norm_num) (by norm_num)⟩

/-! ### C7 -/

/-- C7: `pause` and `resume` are idempotent — a second call without an
intervening opposite call returns the whole state (every field, including
the pending-timer handle) unchanged; `pause` leaves `imageShowTime`
unaltered, and an acting `pause` cancels the pending timer when one is
tracked (the handle becomes null and the tracked timer stops pending). -/
theorem pause_resume_idempotent (s : Slideshow) :
    pause (pause s) = pause s
    ∧ resume (resume s) = resume s
    ∧ (pause s).imageShowTime = s.imageShowTime
    ∧ (s.isPaused = false →
        (pause s).nextImageTimeout = none
        ∧ ∀ t, s.nextImageTimeout = some t →
            (pause s).pending = s.pending.filter (fun tm => tm.tid != t)) := by
  refine ⟨pause_of_isPaused _ (pause_isPaused s),
          resume_of_not_paused _ (resume_isPaused s),
          (pause_fields s).1, ?_⟩
  intro h
  unfold pause clearTimer
  cases hn : s.nextImageTimeout <;> simp [h, hn]

/-- Witness for C7 at a concrete unpaused state tracking one pending timer. -/
theorem pause_resume_idempotent_witness :
    ({ baseState with nextImageTimeout := some 5,
                      pending := [⟨5, 1750, true⟩] } : Slideshow).isPaused = false
    ∧ (pause (pause { baseState with nextImageTimeout := some 5, pending := [⟨5, 1750, true⟩] })
         = pause { baseState with nextImageTimeout := some 5, pending := [⟨5, 1750, true⟩] }
       ∧ resume (resume { baseState with nextImageTimeout := some 5, pending := [⟨5, 1750, true⟩] })
         = resume { baseState with nextImageTimeout := some 5, pending := [⟨5, 1750, true⟩] }
       ∧ (pause { baseState with nextImageTimeout := some 5, pending := [⟨5, 1750, true⟩] }).imageShowTime
         = ({ baseState with nextImageTimeout := some 5, pending := [⟨5, 1750, true⟩] } : Slideshow).imageShowTime
       ∧ (({ baseState with nextImageTimeout := some 5, pending := [⟨5, 1750, true⟩] } : Slideshow).isPaused = false →
           (pause { baseState with nextImageTimeout := some 5, pending := [⟨5, 1750, true⟩] }).nextImageTimeout = none
           ∧ ∀ t, ({ baseState with nextImageTimeout := some 5, pending := [⟨5, 1750, true⟩] } : Slideshow).nextImageTimeout = some t →
               (pause { baseState with nextImageTimeout := some 5, pending := [⟨5, 1750, true⟩] }).pending
               = ({ baseState with nextImageTimeout := some 5, pending := [⟨5, 1750, true⟩] } : Slideshow).pending.filter (fun tm => tm.tid != t))) :=
  ⟨rfl, pause_resume_idempotent { baseState with nextImageTimeout := some 5, pending := [⟨5, 1750, true⟩] }⟩

/-! ### C8 -/

/-- C8: when an image fails to load during a tick, the handler logs one
warning line, inserts no element, leaves the cursor and permutation alone,
and schedules the next tick with exactly the full duration
`transitionDuration + displayDuration` — the same delay the successful-load
handler schedules.  The handler is a total function, so it does not throw. -/
theorem onerror_preserves_cadence (s : Slideshow) (path : String)
    (hp : s.isPaused = false) :
    (onerrorSettle s path).elems = s.elems
    ∧ (onerrorSettle s path).currentIndex = s.currentIndex
    ∧ (onerrorSettle s path).shuffledImages = s.shuffledImages
    ∧ (onerrorSettle s path).log = s.log ++ ["Failed to load image: " ++ path]
    ∧ (onerrorSettle s path).pending.getLast?.map Timer.delay
        = some ((nominalDuration s : Nat) : Int)
    ∧ (onloadSettle s).pending.getLast?.map Timer.delay
        = some ((nominalDuration s : Nat) : Int)
    ∧ nominalDuration s = s.options.transitionDuration + s.options.displayDuration := by
  unfold onerrorSettle onloadSettle clearTimer scheduleRotation
  cases hn : s.nextImageTimeout <;>
    simp [hp, hn, nominalDuration, getLast_append_single]

/-- Witness for C8 at the concrete base state. -/
theorem onerror_preserves_cadence_witness :
    baseState.isPaused = false
    ∧ ((onerrorSettle baseState "x").elems = baseState.elems
       ∧ (onerrorSettle baseState "x").currentIndex = baseState.currentIndex
       ∧ (onerrorSettle baseState "x").shuffledImages = baseState.shuffledImages
       ∧ (onerrorSettle baseState "x").log = baseState.log ++ ["Failed to load image: " ++ "x"]
       ∧ (onerrorSettle baseState "x").pending.getLast?.map Timer.delay
           = some ((nominalDuration baseState : Nat) : Int)
       ∧ (onloadSettle baseState).pending.getLast?.map Timer.delay
           = some ((nominalDuration baseState : Nat) : Int)
       ∧ nominalDuration baseState
           = baseState.options.transitionDuration + baseState.options.displayDuration) :=
  ⟨rfl, onerror_preserves_cadence baseState "x" rfl⟩

/-! ### C3 -/

/-- C3 (amended): resuming right after a pause schedules one new rotation
timer whose delay is exactly `max(0, fullDisplayDuration − (now −
imageShowTime))` when both fields are recorded (and nonzero), and the full
nominal duration when no `imageShowTime` is recorded; the rescheduled delay
is ≤ the full recorded duration and ≥ 0 — it is 0 (not strictly positive)
exactly when the elapsed time has already reached the full duration. -/
theorem resume_after_pause_delay (s : Slideshow)
    (hp : s.isPaused = false) (hc : s.currentImage.isSome = true) :
    (resume (pause s)).pending.getLast?.map Timer.delay = some (resumeDelay s)
    ∧ (∀ t : Int, ∀ dn : Nat, s.imageShowTime = some t → t ≠ 0 →
        s.fullDisplayDuration = some dn → dn ≠ 0 →
        resumeDelay s = max 0 ((dn : Int) - (s.now - t))
        ∧ 0 ≤ resumeDelay s
        ∧ (t ≤ s.now → resumeDelay s ≤ (dn : Int)))
    ∧ (s.imageShowTime = none → resumeDelay s = ((nominalDuration s : Nat) : Int)) := by
  obtain ⟨-, -, -, h4, -, h6⟩ := pause_fields s
  refine ⟨?_, ?_, ?_⟩
  · have hps : (pause s).isPaused = true := pause_isPaused s
    have hcs : (pause s).currentImage.isSome = true := by rw [h4]; exact hc
    unfold resume
    rw [hps]
    simp only [Bool.not_true, Bool.false_eq_true, if_false]
    have hcs2 : ({ pause s with isPaused := false } : Slideshow).currentImage.isSome = true := hcs
    rw [if_pos hcs2]
    have hrd : resumeDelay ({ pause s with isPaused := false } : Slideshow)
        = resumeDelay s := by
      have : resumeDelay ({ pause s with isPaused := false } : Slideshow)
          = resumeDelay (pause s) := by
        unfold resumeDelay nominalDuration; rfl
      rw [this, resumeDelay_pause]
    rw [hrd]
    simp [scheduleRotation, getLast_append_single]
  · intro t dn ht htz hd hdz
    have hdelay : resumeDelay s = max 0 ((dn : Int) - (s.now - t)) := by
      unfold resumeDelay
      simp [ht, hd, truthyInt, truthyNat, htz, hdz]
    refine ⟨hdelay, by rw [hdelay]; exact le_max_left _ _, ?_⟩
    intro hle
    rw [hdelay]
    exact max_le (by exact_mod_cast Int.ofNat_nonneg dn) (by omega)
  · intro ht
    unfold resumeDelay
    simp [ht, truthyInt]

/-- Witness for C3 at a concrete state: paused 200 ms into a 1750 ms full
duration, resume schedules the remaining 1550 ms. -/
theorem resume_after_pause_delay_witness :
    ({ baseState with currentImage := some 1, imageShowTime := some 1000,
                      fullDisplayDuration := some 1750, now := 1200 } : Slideshow).isPaused = false
    ∧ ({ baseState with currentImage := some 1, imageShowTime := some 1000,
                        fullDisplayDuration := some 1750, now := 1200 } : Slideshow).currentImage.isSome = true
    ∧ ((resume (pause { baseState with currentImage := some 1, imageShowTime := some 1000,
                                       fullDisplayDuration := some 1750, now := 1200 })).pending.getLast?.map Timer.delay
         = some (resumeDelay { baseState with currentImage := some 1, imageShowTime := some 1000,
                                              fullDisplayDuration := some 1750, now := 1200 })
       ∧ (∀ t : Int, ∀ dn : Nat,
           ({ baseState with currentImage := some 1, imageShowTime := some 1000,
                             fullDisplayDuration := some 1750, now := 1200 } : Slideshow).imageShowTime = some t → t ≠ 0 →
           ({ baseState with currentImage := some 1, imageShowTime := some 1000,
                             fullDisplayDuration := some 1750, now := 1200 } : Slideshow).fullDisplayDuration = some dn → dn ≠ 0 →
           resumeDelay { baseState with currentImage := some 1, imageShowTime := some 1000,
                                        fullDisplayDuration := some 1750, now := 1200 }
             = max 0 ((dn : Int) - (({ baseState with currentImage := some 1, imageShowTime := some 1000,
                                                      fullDisplayDuration := some 1750, now := 1200 } : Slideshow).now - t))
           ∧ 0 ≤ resumeDelay { baseState with currentImage := some 1, imageShowTime := some 1000,
                                              fullDisplayDuration := some 1750, now := 1200 }
           ∧ (t ≤ ({ baseState with currentImage := some 1, imageShowTime := some 1000,
                                    fullDisplayDuration := some 1750, now := 1200 } : Slideshow).now →
               resumeDelay { baseState with currentImage := some 1, imageShowTime := some 1000,
                                            fullDisplayDuration := some 1750, now := 1200 } ≤ (dn : Int)))
       ∧ (({ baseState with currentImage := some 1, imageShowTime := some 1000,
                            fullDisplayDuration := some 1750, now := 1200 } : Slideshow).imageShowTime = none →
           resumeDelay { baseState with currentImage := some 1, imageShowTime := some 1000,
                                        fullDisplayDuration := some 1750, now := 1200 }
             = ((nominalDuration { baseState with currentImage := some 1, imageShowTime := some 1000,
                                                  fullDisplayDuration := some 1750, now := 1200 } : Nat) : Int))) :=
  ⟨rfl, rfl, resume_after_pause_delay
    { baseState with currentImage := some 1, imageShowTime := some 1000,
                     fullDisplayDuration := some 1750, now := 1200 } rfl rfl⟩

/-- C3 counterexample: in a state paused only after the elapsed time already
reached the recorded full duration (1900 ms elapsed of 1750 ms), pausing and
immediately resuming schedules the next tick with delay 0 — not a strictly
positive delay as the claim states. -/
theorem resume_after_pause_delay_cex :
    (resume (pause { baseState with currentImage := some 1, imageShowTime := some 100,
                                    fullDisplayDuration := some 1750, now := 2000 })).pending.map Timer.delay
      = [(0 : Int)] := by
  rfl

/-! ### C1 -/

lemma preload_all (loads : String → Bool) (l : List String) :
    preloadImages loads l = (if l.all loads then some l else none) := by
  induction l with
  | nil => rfl
  | cons x xs ih =>
    unfold preloadImages
    rw [ih]
    by_cases hx : loads x <;> by_cases ha : xs.all loads <;>
      simp [hx, ha, List.all_cons]

/-- C1 (amended): `init` preloads every image through `Promise.all`, whose
combined promise rejects as soon as any single preload fails; since no
rejection handler is attached, rotation (the first `showNextImage`) begins
if and only if every preload succeeds.  A single failed preload therefore
prevents rotation from ever starting (it does not merely fail silently). -/
theorem init_begins_iff_all_preloads_load (loads : String → Bool)
    (shuffle reshuffle : List String) (s : Slideshow)
    (hc : s.container = true) (hi : s.currentIndex = 0) (hn : shuffle ≠ []) :
    (shuffle.all loads = true →
       (initStep loads shuffle reshuffle s).1 = shuffle[0]?
       ∧ (initStep loads shuffle reshuffle s).1.isSome = true)
    ∧ (shuffle.all loads = false →
       initStep loads shuffle reshuffle s = (none, { s with shuffledImages := shuffle })) := by
  constructor
  · intro ha
    have h1 : (initStep loads shuffle reshuffle s).1 = shuffle[0]? := by
      unfold initStep
      simp only [preload_all, ha, if_true]
      unfold showNextImage
      simp [hc, hi]
    refine ⟨h1, ?_⟩
    rw [h1, List.getElem?_eq_getElem (List.length_pos.mpr hn)]
    rfl
  · intro ha
    unfold initStep
    simp only [preload_all, ha]
    simp

/-- Witness for C1 (amended): with every preload succeeding, the first tick
takes the head of the shuffled list; the failure branch holds vacuously. -/
theorem init_begins_iff_all_preloads_load_witness :
    baseState.container = true ∧ baseState.currentIndex = 0
    ∧ (["a", "b", "c"] : List String) ≠ []
    ∧ (((["a", "b", "c"] : List String).all (fun _ => true) = true →
         (initStep (fun _ => true) ["a", "b", "c"] [] baseState).1 = (["a", "b", "c"] : List String)[0]?
         ∧ (initStep (fun _ => true) ["a", "b", "c"] [] baseState).1.isSome = true)
       ∧ ((["a", "b", "c"] : List String).all (fun _ => true) = false →
         initStep (fun _ => true) ["a", "b", "c"] [] baseState
           = (none, { baseState with shuffledImages := ["a", "b", "c"] }))) :=
  ⟨rfl, rfl, by decide,
   init_begins_iff_all_preloads_load (fun _ => true) ["a", "b", "c"] [] baseState
     rfl rfl (by decide)⟩

/-- C1 counterexample: a catalog of three images of which exactly one
("b") fails to preload.  `Promise.all` rejects, `init`'s then-callback never
runs, and rotation never begins: no first tick occurs and the cursor never
advances — contradicting the claim that rotation still begins when one or
more preloads fail. -/
theorem init_begins_cex :
    preloadImages (fun src => src != "b") ["a", "b", "c"] = none
    ∧ (initStep (fun src => src != "b") ["a", "b", "c"] [] baseState).1 = none
    ∧ (initStep (fun src => src != "b") ["a", "b", "c"] [] baseState).2.currentIndex = 0
    ∧ (fun src => src != "b") "a" = true
    ∧ (fun src => src != "b") "c" = true := by
  refine ⟨rfl, rfl, rfl, by decide, by decide⟩

/-! ### C2 -/

lemma showNextImage_timer_fields (s : Slideshow) (os : List String) :
    ((showNextImage s os).2).pending = s.pending
    ∧ ((showNextImage s os).2).isPaused = s.isPaused
    ∧ ((showNextImage s os).2).nextImageTimeout = s.nextImageTimeout := by
  unfold showNextImage
  cases h : s.container <;> simp [h]

lemma timerInv_of_fields {s t : Slideshow} (hp : t.pending = s.pending)
    (hi : t.isPaused = s.isPaused) (hn : t.nextImageTimeout = s.nextImageTimeout)
    (h : TimerInv s) : TimerInv t := by
  unfold TimerInv timerInvB at h ⊢
  rw [hp, hi, hn]
  exact h

lemma timerInv_of_pending_nil {s : Slideshow} (h : s.pending = []) : TimerInv s := by
  unfold TimerInv timerInvB
  rw [h]

lemma timerInv_length {s : Slideshow} (h : TimerInv s) : s.pending.length ≤ 1 := by
  unfold TimerInv timerInvB at h
  cases hpd : s.pending with
  | nil => simp
  | cons tm rest =>
    cases rest with
    | nil => simp
    | cons tm2 rest2 => rw [hpd] at h; simp at h

lemma step_preserves_timerInv (s : Slideshow) (e : Event) (he : e.isErr = false)
    (h : TimerInv s) : TimerInv (step s e) := by
  cases e with
  | loadErr p => simp [Event.isErr] at he
  | pauseEv =>
    show TimerInv (pause s)
    unfold TimerInv timerInvB at h ⊢
    unfold pause clearTimer
    cases hip : s.isPaused with
    | true => simpa [hip] using h
    | false =>
      cases hn : s.nextImageTimeout with
      | none =>
        cases hpd : s.pending with
        | nil => simp [hpd]
        | cons tm rest =>
          cases rest with
          | nil => rw [hpd, hn] at h; simp [hip] at h
          | cons tm2 rest2 => rw [hpd] at h; simp at h
      | some t0 =>
        cases hpd : s.pending with
        | nil => simp [hpd]
        | cons tm rest =>
          cases rest with
          | nil =>
            rw [hpd, hn] at h
            simp [hip, Option.some_inj] at h
            simp [hpd, h]
          | cons tm2 rest2 => rw [hpd] at h; simp at h
  | resumeEv =>
    show TimerInv (resume s)
    unfold TimerInv timerInvB at h ⊢
    unfold resume scheduleRotation
    cases hip : s.isPaused with
    | false => simpa [hip] using h
    | true =>
      cases hpd : s.pending with
      | nil => cases hc : s.currentImage <;> simp [hpd, hc]
      | cons tm rest =>
        cases rest with
        | nil => rw [hpd] at h; simp [hip] at h
        | cons tm2 rest2 => rw [hpd] at h; simp at h
  | loadOk =>
    show TimerInv (onloadSettle s)
    unfold TimerInv timerInvB at h ⊢
    unfold onloadSettle clearTimer
    cases hpd : s.pending with
    | nil =>
      cases hn : s.nextImageTimeout with
      | none => cases hip : s.isPaused <;> simp [hpd, hip, scheduleRotation]
      | some t0 => cases hip : s.isPaused <;> simp [hpd, hip, scheduleRotation]
    | cons tm rest =>
      cases rest with
      | nil =>
        rw [hpd] at h
        cases hn : s.nextImageTimeout with
        | none => rw [hn] at h; simp at h
        | some t0 =>
          rw [hn] at h
          simp [Option.some_inj] at h
          obtain ⟨hip, htid⟩ := h
          simp [hpd, hip, hn, htid, scheduleRotation]
      | cons tm2 rest2 => rw [hpd] at h; simp at h
  | fire t os =>
    show TimerInv (fireTimer s t os)
    unfold fireTimer
    cases hf : s.pending.find? (fun tm => tm.tid == t) with
    | none => simpa using h
    | some tm =>
      cases hpd : s.pending with
      | nil => rw [hpd] at hf; simp at hf
      | cons tm0 rest =>
        cases rest with
        | cons tm2 rest2 =>
          unfold TimerInv timerInvB at h
          rw [hpd] at h
          simp at h
        | nil =>
          have htid : tm0.tid = t := by
            cases hq : (tm0.tid == t) with
            | true => simpa using hq
            | false =>
              exfalso
              rw [hpd] at hf
              simp [List.find?, hq] at hf
          have hfl : (fireBody s t tm os).pending = [] := by
            unfold fireBody
            dsimp only
            split
            · simp [hpd, htid]
            · rw [(showNextImage_timer_fields _ os).1]
              simp [hpd, htid]
          exact timerInv_of_pending_nil hfl

/-- C2 (amended): the successful-load path and the load-error path do cancel
any existing rotation timeout before scheduling a new one, but `resume()`
does not — so the invariant "at most one rotation timeout is pending" holds
for every interleaving of `pause()`, `resume()`, successful loads and timer
firings, while an interleaving containing a load error settling while paused
can leave two timeouts pending (see the counterexample). -/
theorem rotation_timer_at_most_one (s : Slideshow) (es : List Event)
    (he : es.all (fun e => !e.isErr) = true) (h : TimerInv s) :
    TimerInv (runEvents s es) ∧ (runEvents s es).pending.length ≤ 1 := by
  induction es generalizing s with
  | nil => exact ⟨h, timerInv_length h⟩
  | cons e es ih =>
    rw [List.all_cons] at he
    have he1 : e.isErr = false := by
      cases hq : e.isErr
      · rfl
      · rw [hq] at he; simp at he
    have he2 : es.all (fun e => !e.isErr) = true := by
      cases hq : es.all (fun e => !e.isErr)
      · rw [hq] at he; simp at he
      · rfl
    exact ih (step s e) he2 (step_preserves_timerInv s e he1 h)

/-- Witness for C2 (amended) on a concrete error-free interleaving:
load, timer fire, pause, resume. -/
theorem rotation_timer_at_most_one_witness :
    ([Event.loadOk, Event.fire 1 [], Event.pauseEv, Event.resumeEv].all
        (fun e => !e.isErr) = true)
    ∧ TimerInv baseState
    ∧ (TimerInv (runEvents baseState [Event.loadOk, Event.fire 1 [], Event.pauseEv, Event.resumeEv])
       ∧ (runEvents baseState [Event.loadOk, Event.fire 1 [], Event.pauseEv, Event.resumeEv]).pending.length ≤ 1) :=
  ⟨by decide, by decide,
   rotation_timer_at_most_one baseState
     [Event.loadOk, Event.fire 1 [], Event.pauseEv, Event.resumeEv]
     (by decide) (by decide)⟩

/-- C2 counterexample: the interleaving "first image loads; its rotation
timer fires; the user hovers (pause); the next image's load fails (the error
handler schedules even while paused); the user leaves (resume, which
schedules without cancelling)" leaves TWO rotation timeouts pending at once
— refuting the claim that at most one rotation timeout is pending under
every interleaving of pause, resume, load success and load error. -/
theorem rotation_timer_at_most_one_cex :
    (runEvents baseState
      [Event.loadOk, Event.fire 1 [], Event.pauseEv, Event.loadErr "b",
       Event.resumeEv]).pending.length = 2 := by
  rfl

/-! ### C4 -/

lemma runTicks_zero (os : Nat → List String) (s : Slideshow) :
    runTicks os 0 s = ([], s) := rfl

lemma runTicks_succ (os : Nat → List String) (k : Nat) (s : Slideshow) :
    runTicks os (k + 1) s =
      ((showNextImage s (os 0)).1
         :: (runTicks (fun j => os (j + 1)) k (showNextImage s (os 0)).2).1,
       (runTicks (fun j => os (j + 1)) k (showNextImage s (os 0)).2).2) := rfl

lemma showNextImage_no_wrap (s : Slideshow) (os : List String)
    (hc : s.container = true) (hlt : s.currentIndex + 1 < s.shuffledImages.length) :
    showNextImage s os =
      (some (s.shuffledImages.get ⟨s.currentIndex, by omega⟩),
       { s with currentIndex := s.currentIndex + 1 }) := by
  unfold showNextImage
  rw [List.getElem?_eq_getElem (by omega)]
  have hmod : (s.currentIndex + 1) % s.shuffledImages.length = s.currentIndex + 1 :=
    Nat.mod_eq_of_lt hlt
  simp [hc, hmod]

lemma showNextImage_wrap (s : Slideshow) (os : List String)
    (hc : s.container = true) (hlen : s.currentIndex + 1 = s.shuffledImages.length) :
    showNextImage s os =
      (some (s.shuffledImages.get ⟨s.currentIndex, by omega⟩),
       { s with currentIndex := 0, shuffledImages := os }) := by
  unfold showNextImage
  rw [List.getElem?_eq_getElem (by omega)]
  have hmod : (s.currentIndex + 1) % s.shuffledImages.length = 0 := by
    rw [hlen, Nat.mod_self]
  simp [hc, hmod]

lemma runTicks_mid (os : Nat → List String) (j : Nat) :
    ∀ (s : Slideshow), s.container = true →
    s.currentIndex + j < s.shuffledImages.length →
    (runTicks os j s).2.shuffledImages = s.shuffledImages
    ∧ (runTicks os j s).2.currentIndex = s.currentIndex + j
    ∧ (runTicks os j s).2.container = true := by
  induction j generalizing os with
  | zero => intro s hc _; simp [runTicks_zero, hc]
  | succ k ih =>
    intro s hc hlt
    rw [runTicks_succ, showNextImage_no_wrap s (os 0) hc (by omega)]
    dsimp only
    obtain ⟨h1, h2, h3⟩ := ih (fun j => os (j + 1))
      { s with currentIndex := s.currentIndex + 1 } hc (by dsimp only; omega)
    dsimp only at h1 h2 h3
    refine ⟨h1, by omega, h3⟩

lemma runTicks_end (os : Nat → List String) (k : Nat) :
    ∀ (s : Slideshow), s.container = true → 1 ≤ k →
    s.currentIndex + k = s.shuffledImages.length →
    (runTicks os k s).1 = (s.shuffledImages.drop s.currentIndex).map some
    ∧ (runTicks os k s).2.currentIndex = 0
    ∧ (runTicks os k s).2.shuffledImages = os (k - 1) := by
  induction k generalizing os with
  | zero => intro s _ h1 _; exact absurd h1 (by omega)
  | succ k ih =>
    intro s hc h1 hlen
    by_cases hk : k = 0
    · subst hk
      rw [runTicks_succ, showNextImage_wrap s (os 0) hc (by omega)]
      have hdrop : s.shuffledImages.drop s.currentIndex
          = [s.shuffledImages.get ⟨s.currentIndex, by omega⟩] := by
        rw [List.drop_eq_getElem_cons (by omega), List.drop_eq_nil_of_le (by omega)]
        simp
      rw [hdrop]
      simp [runTicks_zero]
    · have hlt : s.currentIndex + 1 < s.shuffledImages.length := by omega
      rw [runTicks_succ, showNextImage_no_wrap s (os 0) hc hlt]
      dsimp only
      obtain ⟨ho, hi2, hs⟩ := ih (fun j => os (j + 1))
        { s with currentIndex := s.currentIndex + 1 } hc (by omega) (by dsimp only; omega)
      dsimp only at ho hi2 hs
      refine ⟨?_, hi2, ?_⟩
      · rw [ho, List.drop_eq_getElem_cons (show s.currentIndex < s.shuffledImages.length by omega),
           List.map_cons]
        simp [List.get_eq_getElem]
      · rw [hs]
        congr 1
        omega

/-- C4: starting a pass at cursor 0 over a shuffled permutation of the
catalog of size n ≥ 1, the n rotation ticks take exactly the entries of the
permutation at positions 0 through n−1 (in order) — so every catalog entry
is taken exactly once per pass — the permutation is left untouched at every
tick before the wrap, and it is regenerated (by the independent random draw)
exactly when the cursor wraps back to 0. -/
theorem full_pass_visits_each_once (s : Slideshow) (os : Nat → List String)
    (hc : s.container = true) (hi : s.currentIndex = 0)
    (hn : 1 ≤ s.shuffledImages.length)
    (hperm : s.shuffledImages.Perm s.imagePaths) :
    (runTicks os s.shuffledImages.length s).1 = s.shuffledImages.map some
    ∧ (runTicks os s.shuffledImages.length s).1.Perm (s.imagePaths.map some)
    ∧ (∀ j, j < s.shuffledImages.length →
        (runTicks os j s).2.shuffledImages = s.shuffledImages)
    ∧ (runTicks os s.shuffledImages.length s).2.currentIndex = 0
    ∧ (runTicks os s.shuffledImages.length s).2.shuffledImages
        = os (s.shuffledImages.length - 1) := by
  obtain ⟨ho, hcur, hsh⟩ := runTicks_end os s.shuffledImages.length s hc hn (by omega)
  have ho2 : (runTicks os s.shuffledImages.length s).1 = s.shuffledImages.map some := by
    rw [ho, hi]
    simp
  refine ⟨ho2, ?_, ?_, hcur, hsh⟩
  · rw [ho2]
    exact hperm.map some
  · intro j hj
    exact (runTicks_mid os j s hc (by omega)).1

/-- Witness for C4 on the concrete three-image catalog. -/
theorem full_pass_visits_each_once_witness :
    baseState.container = true ∧ baseState.currentIndex = 0
    ∧ 1 ≤ baseState.shuffledImages.length
    ∧ baseState.shuffledImages.Perm baseState.imagePaths
    ∧ ((runTicks (fun _ => ["c", "a", "b"]) baseState.shuffledImages.length baseState).1
         = baseState.shuffledImages.map some
       ∧ (runTicks (fun _ => ["c", "a", "b"]) baseState.shuffledImages.length baseState).1.Perm
           (baseState.imagePaths.map some)
       ∧ (∀ j, j < baseState.shuffledImages.length →
           (runTicks (fun _ => ["c", "a", "b"]) j baseState).2.shuffledImages
             = baseState.shuffledImages)
       ∧ (runTicks (fun _ => ["c", "a", "b"]) baseState.shuffledImages.length baseState).2.currentIndex = 0
       ∧ (runTicks (fun _ => ["c", "a", "b"]) baseState.shuffledImages.length baseState).2.shuffledImages
           = (fun _ => ["c", "a", "b"]) (baseState.shuffledImages.length - 1)) :=
  ⟨rfl, rfl, by decide, List.Perm.refl _,
   full_pass_visits_each_once baseState (fun _ => ["c", "a", "b"])
     rfl rfl (by decide) (List.Perm.refl _)⟩

/-! ### C6 -/

lemma resume_elems (s : Slideshow) : (resume s).elems = s.elems := by
  unfold resume scheduleRotation
  cases h : s.isPaused
  · simp [h]
  · cases hc : s.currentImage <;> simp [h, hc]

lemma removeStrays_cur (s : Slideshow) : (removeStrays s).currentImage = s.currentImage := rfl

lemma forceActive_cur (s : Slideshow) : (forceActive s).currentImage = s.currentImage := by
  unfold forceActive
  split <;> rfl

lemma forceActive_isPaused (s : Slideshow) : (forceActive s).isPaused = s.isPaused := by
  unfold forceActive
  split <;> rfl

lemma forceActive_elems_some (s : Slideshow) (ce : Nat) (hcur : s.currentImage = some ce) :
    (forceActive s).elems = s.elems.map (fun e =>
      if e.eid == ce && !hasClass e "active"
      then { e with classes := e.classes ++ ["active"] } else e) := by
  unfold forceActive
  rw [hcur]

lemma resumeIfNotHovered_elems (s : Slideshow) :
    (resumeIfNotHovered s).elems = s.elems := by
  unfold resumeIfNotHovered
  split
  · rfl
  · split
    · exact resume_elems _
    · rfl

lemma resumeIfNotHovered_isPaused_false (s : Slideshow) (ce : Nat)
    (hcur : s.currentImage = some ce) (hp : s.isPaused = true)
    (hhov : ((s.elems.find? (fun e => e.eid == ce)).map Entity.hovered).getD false = false) :
    (resumeIfNotHovered s).isPaused = false := by
  unfold resumeIfNotHovered
  rw [hcur]
  dsimp only
  rw [hp, hhov]
  simp only [Bool.not_false, Bool.and_true, if_true]
  exact resume_isPaused s

lemma cleanup_eq (s : Slideshow) (hc : s.container = true) :
    cleanupStuckImages s = resumeIfNotHovered (forceActive (removeStrays s)) := by
  unfold cleanupStuckImages
  rw [hc]
  rfl

lemma find_hovered_map (l : List Entity) (ce : Nat) (f : Entity → Entity)
    (hf : ∀ e, (f e).eid = e.eid ∧ (f e).hovered = e.hovered) :
    ((l.map f).find? (fun e => e.eid == ce)).map Entity.hovered
      = (l.find? (fun e => e.eid == ce)).map Entity.hovered := by
  induction l with
  | nil => rfl
  | cons x xs ih =>
    rw [List.map_cons, List.find?_cons, List.find?_cons, (hf x).1]
    cases hq : (x.eid == ce) with
    | true => simp only [hq]; simp [(hf x).2]
    | false => simp only [hq]; exact ih

/-- C6: with a container and a tracked current entity, the recovery pass
leaves no attached slideshow image other than the current one, every
remaining entity with the current id carries the `active` class, and when
paused while the current entity is not hovered, the pass resumes (the
paused flag is cleared). -/
theorem cleanup_removes_strays (s : Slideshow) (ce : Nat)
    (hc : s.container = true) (hcur : s.currentImage = some ce) :
    (∀ e ∈ (cleanupStuckImages s).elems,
        e.inDom = true → hasClass e imageClass = true → e.eid = ce)
    ∧ (∀ e ∈ (cleanupStuckImages s).elems, e.eid = ce → hasClass e "active" = true)
    ∧ (s.isPaused = true →
        ((s.elems.find? (fun e => e.eid == ce)).map Entity.hovered).getD false = false →
        (cleanupStuckImages s).isPaused = false) := by
  rw [cleanup_eq s hc]
  have hrs_cur : (removeStrays s).currentImage = some ce := by
    rw [removeStrays_cur, hcur]
  have hfa_elems : (forceActive (removeStrays s)).elems
      = (removeStrays s).elems.map (fun e =>
          if e.eid == ce && !hasClass e "active"
          then { e with classes := e.classes ++ ["active"] } else e) :=
    forceActive_elems_some _ ce hrs_cur
  refine ⟨?_, ?_, ?_⟩
  · intro e he hin hcl
    rw [resumeIfNotHovered_elems, hfa_elems] at he
    obtain ⟨y, hy, rfl⟩ := List.mem_map.mp he
    unfold removeStrays at hy
    simp only [List.mem_map] at hy
    obtain ⟨x, hx, rfl⟩ := hy
    by_cases h1 : (x.inDom && hasClass x imageClass && !(some x.eid == s.currentImage)) = true
    · by_cases h2 : (({ x with inDom := false } : Entity).eid == ce
          && !hasClass { x with inDom := false } "active") = true
      · rw [if_pos h1, if_pos h2] at hin
        simp at hin
      · rw [if_pos h1, if_neg h2] at hin
        simp at hin
    · rw [if_neg h1] at hin hcl ⊢
      by_cases h2 : (x.eid == ce && !hasClass x "active") = true
      · rw [if_pos h2]
        simp only [Bool.and_eq_true, beq_iff_eq] at h2
        exact h2.1
      · rw [if_neg h2] at hin hcl ⊢
        rw [hcur] at h1
        simp only [Bool.and_eq_true, Bool.not_eq_true', beq_iff_eq,
          Option.some.injEq, not_and] at h1
        by_cases heq : x.eid = ce
        · exact heq
        · exact absurd (by simp [heq]) (h1 ⟨hin, hcl⟩)
  · intro e he heid
    rw [resumeIfNotHovered_elems, hfa_elems] at he
    obtain ⟨y, hy, rfl⟩ := List.mem_map.mp he
    by_cases h2 : (y.eid == ce && !hasClass y "active") = true
    · rw [if_pos h2]
      simp [hasClass]
    · rw [if_neg h2] at heid ⊢
      simp only [Bool.and_eq_true, Bool.not_eq_true', beq_iff_eq, not_and] at h2
      cases hac : hasClass y "active"
      · exact absurd hac (h2 heid)
      · rfl
  · intro hp hhov
    have hhov2 : (((forceActive (removeStrays s)).elems.find?
          (fun e => e.eid == ce)).map Entity.hovered).getD false = false := by
      rw [hfa_elems]
      rw [find_hovered_map _ ce _ (fun e => by split <;> simp)]
      unfold removeStrays
      simp only
      rw [find_hovered_map _ ce _ (fun e => by split <;> simp)]
      exact hhov
    exact resumeIfNotHovered_isPaused_false _ ce
      (by rw [forceActive_cur, removeStrays_cur, hcur])
      (by rw [forceActive_isPaused]; exact hp) hhov2

/-- Witness for C6 on the concrete stuck state: 3 strays plus the current
entity leave exactly 1 attached display entity, now active, and the paused
controller resumes. -/
theorem cleanup_removes_strays_witness :
    strayState.container = true
    ∧ strayState.currentImage = some 0
    ∧ ((∀ e ∈ (cleanupStuckImages strayState).elems,
          e.inDom = true → hasClass e imageClass = true → e.eid = 0)
       ∧ (∀ e ∈ (cleanupStuckImages strayState).elems, e.eid = 0 →
            hasClass e "active" = true)
       ∧ (strayState.isPaused = true →
            ((strayState.elems.find? (fun e => e.eid == 0)).map Entity.hovered).getD false
              = false →
            (cleanupStuckImages strayState).isPaused = false))
    ∧ ((cleanupStuckImages strayState).elems.filter
          (fun e => e.inDom && hasClass e imageClass)).length = 1
    ∧ (cleanupStuckImages strayState).isPaused = false :=
  ⟨rfl, rfl, cleanup_removes_strays strayState 0 rfl rfl, by decide, by decide⟩

end Slideshow

end Norri
